import Mathlib

/-!
Verification of the Athena++ build-configuration resolver (configure.py).

The script is embedded shallowly: each enumerated command-line choice becomes
an inductive type, the parsed argument record becomes a structure, and the
sequential blocks of the script (default-flux selection, the nine
compatibility checks, the derivation of the definitions / makefile-options
dictionaries, template substitution, and output emission) become pure Lean
functions mirroring the source line by line.  Dictionary keys become record
fields; in-place dictionary mutation becomes per-field functional update in
the same order as the source.
-/

set_option maxHeartbeats 1000000

/-- Values of the --eos option (configure.py line 68-71). -/
inductive Eos
  | adiabatic
  | isothermal
deriving DecidableEq, BEq, Fintype

/-- Values of the --flux option (configure.py line 74-77);
the constructor Flux.default models the string choice 'default'. -/
inductive Flux
  | default
  | hlle
  | hllc
  | hlld
  | roe
  | llf
deriving DecidableEq, BEq, Fintype

/-- Values of the --coord option (configure.py line 61-65). -/
inductive Coord
  | cartesian
  | cylindrical
  | sphericalPolar
  | minkowski
  | sinusoidal
  | tilted
  | schwarzschild
  | kerrSchild
  | grUser
deriving DecidableEq, BEq, Fintype

/-- Values of the --cxx option (configure.py line 151-154). -/
inductive Cxx
  | gpp
  | icc
  | cray
  | bgxl
  | iccPhi
deriving DecidableEq, BEq, Fintype

/-- The command-line string of each EOS choice. -/
def eosStr : Eos → String
  | .adiabatic => "adiabatic"
  | .isothermal => "isothermal"

/-- The command-line string of each flux choice. -/
def fluxStr : Flux → String
  | .default => "default"
  | .hlle => "hlle"
  | .hllc => "hllc"
  | .hlld => "hlld"
  | .roe => "roe"
  | .llf => "llf"

/-- The command-line string of each coordinate choice. -/
def coordStr : Coord → String
  | .cartesian => "cartesian"
  | .cylindrical => "cylindrical"
  | .sphericalPolar => "spherical_polar"
  | .minkowski => "minkowski"
  | .sinusoidal => "sinusoidal"
  | .tilted => "tilted"
  | .schwarzschild => "schwarzschild"
  | .kerrSchild => "kerr-schild"
  | .grUser => "gr_user"

/-- The parsed command-line arguments (the args dict of configure.py
line 176, with the option model of Step 1).  Field includePaths models
args['include'] and libPaths models args['lib']. -/
structure Args where
  prob : String
  coord : Coord
  eos : Eos
  flux : Flux
  order : String
  fint : String
  b : Bool
  s : Bool
  g : Bool
  t : Bool
  sh : Bool
  debug : Bool
  mpi : Bool
  omp : Bool
  hdf5 : Bool
  hdf5_path : String
  cxx : Cxx
  ccmd : Option String
  includePaths : List String
  libPaths : List String

/-- The argparse defaults of Step 1 of configure.py. -/
def defaultArgs : Args where
  prob := "shock_tube"
  coord := .cartesian
  eos := .adiabatic
  flux := .default
  order := "plm"
  fint := "vl2"
  b := false
  s := false
  g := false
  t := false
  sh := false
  debug := false
  mpi := false
  omp := false
  hdf5 := false
  hdf5_path := ""
  cxx := .gpp
  ccmd := none
  includePaths := []
  libPaths := []

/-- Default flux selection (configure.py line 181-189): HLLD for MHD,
HLLC for hydro, HLLE for isothermal hydro or any GR. -/
def setDefaultFlux (a : Args) : Args :=
  if a.flux = .default then
    { a with flux :=
        if a.g = true then .hlle
        else if a.b = true then .hlld
        else if a.eos = .isothermal then .hlle
        else .hllc }
  else a

/-- The fatal configuration errors raised by Step 2 of configure.py
(line 192-216), one constructor per raise site, carrying the data
interpolated into the message. -/
inductive ConfigError
  | hllcIso
  | hllcMhd
  | hlldHydro
  | srGr
  | tNoGr
  | noTransform (f : Flux)
  | grFlat (c : Coord)
  | flatGr (c : Coord)
  | isoRel
deriving DecidableEq

/-- The position of each raise site in the ordered list of the nine
compatibility rules of configure.py Step 2. -/
def ruleIdx : ConfigError → Nat
  | .hllcIso => 1
  | .hllcMhd => 2
  | .hlldHydro => 3
  | .srGr => 4
  | .tNoGr => 5
  | .noTransform _ => 6
  | .grFlat _ => 7
  | .flatGr _ => 8
  | .isoRel => 9

/-- The exact SystemExit message of each raise site of configure.py
Step 2 (line 192-216). -/
def errMsg : ConfigError → String
  | .hllcIso => "### CONFIGURE ERROR: HLLC flux cannot be used with isothermal EOS"
  | .hllcMhd => "### CONFIGURE ERROR: HLLC flux cannot be used with MHD"
  | .hlldHydro => "### CONFIGURE ERROR: HLLD flux can only be used with MHD"
  | .srGr => "### CONFIGURE ERROR: GR implies SR; the -s option is restricted to pure SR"
  | .tNoGr => "### CONFIGURE ERROR: Frame transformations only apply to GR"
  | .noTransform f => "### CONFIGURE ERROR: Frame transformations required for " ++ fluxStr f
  | .grFlat c => "### CONFIGURE ERROR: GR cannot be used with " ++ coordStr c ++ " coordinates"
  | .flatGr c => "### CONFIGURE ERROR: " ++ coordStr c ++ " coordinates only apply to GR"
  | .isoRel => "### CONFIGURE ERROR: Isothermal EOS is incompatible with relativity"

/-- Step 2 compatibility checks of configure.py (line 192-216), in source
order; the result is the first raised error, or none when the script falls
through to Step 3. -/
def checkCompat (a : Args) : Option ConfigError :=
  if a.flux = .hllc ∧ a.eos = .isothermal then some .hllcIso
  else if a.flux = .hllc ∧ a.b = true then some .hllcMhd
  else if a.flux = .hlld ∧ a.b = false then some .hlldHydro
  else if a.s = true ∧ a.g = true then some .srGr
  else if a.t = true ∧ a.g = false then some .tNoGr
  else if a.g = true ∧ a.t = false ∧ a.flux ≠ .llf ∧ a.flux ≠ .hlle then
    some (.noTransform a.flux)
  else if a.g = true ∧ (a.coord = .cartesian ∨ a.coord = .cylindrical ∨ a.coord = .sphericalPolar) then
    some (.grFlat a.coord)
  else if a.g = false ∧ ¬(a.coord = .cartesian ∨ a.coord = .cylindrical ∨ a.coord = .sphericalPolar) then
    some (.flatGr a.coord)
  else if a.eos = .isothermal ∧ (a.s = true ∨ a.g = true) then some .isoRel
  else none

/-- The nine compatibility rules transcribed from the ordered list of
the specification (section 4.2): ruleViolated i a holds when option set a
violates rule i. -/
def ruleViolated (i : Nat) (a : Args) : Bool :=
  match i with
  | 1 => a.flux == .hllc && a.eos == .isothermal
  | 2 => a.flux == .hllc && a.b
  | 3 => a.flux == .hlld && !a.b
  | 4 => a.s && a.g
  | 5 => a.t && !a.g
  | 6 => a.g && !a.t && !(a.flux == .llf || a.flux == .hlle)
  | 7 => a.g && (a.coord == .cartesian || a.coord == .cylindrical || a.coord == .sphericalPolar)
  | 8 => !a.g && !(a.coord == .cartesian || a.coord == .cylindrical || a.coord == .sphericalPolar)
  | 9 => a.eos == .isothermal && (a.s || a.g)
  | _ => false

/-- The earliest rule of section 4.2 violated by an option set, if any. -/
def firstViolated (a : Args) : Option Nat :=
  [1, 2, 3, 4, 5, 6, 7, 8, 9].find? (fun i => ruleViolated i a)

example : checkCompat { defaultArgs with flux := .hllc, eos := .isothermal } = some .hllcIso := by
  decide

example : checkCompat { defaultArgs with flux := .hllc, eos := .isothermal, b := true } = some .hllcIso := by
  decide

example : firstViolated { defaultArgs with flux := .hllc, eos := .isothermal, b := true } = some 1 := by
  decide

example : checkCompat { defaultArgs with flux := .hllc } = none := by decide

/-- The definitions dictionary of configure.py Step 3 (keys of defs.hpp.in
substitutions); each key is a record field, in insertion order. -/
structure Definitions where
  PROBLEM : String
  COORDINATE_SYSTEM : String
  NON_BAROTROPIC_EOS : String
  NHYDRO_VARIABLES : String
  RSOLVER : String
  RECONSTRUCT : String
  HYDRO_INTEGRATOR : String
  MAGNETIC_FIELDS_ENABLED : String
  NFIELD_VARIABLES : String
  NWAVE_VALUE : String
  RELATIVISTIC_DYNAMICS : String
  GENERAL_RELATIVITY : String
  FRAME_TRANSFORMATIONS : String
  SHEARING_BOX : String
  COMPILER_CHOICE : String
  COMPILER_COMMAND : String
  DEBUG : String
  MPI_OPTION : String
  OPENMP_OPTION : String
  HDF5_OPTION : String
  COMPILER_FLAGS : String
deriving DecidableEq

/-- The makefile_options dictionary of configure.py Step 3 (keys of
Makefile.in substitutions); each key is a record field, in insertion order. -/
structure MakefileOptions where
  LOADER_FLAGS : String
  PROBLEM_FILE : String
  COORDINATES_FILE : String
  EOS_FILE : String
  RSOLVER_FILE : String
  RECONSTRUCT_FILE : String
  HYDRO_INT_FILE : String
  RSOLVER_DIR : String
  COMPILER_COMMAND : String
  PREPROCESSOR_FLAGS : String
  COMPILER_FLAGS : String
  LINKER_FLAGS : String
  LIBRARY_FLAGS : String
deriving DecidableEq

/-- The entries written by the leading blocks of Step 3 (configure.py
line 221-247): problem, coordinates, eos (with NHYDRO_VARIABLES and
NON_BAROTROPIC_EOS), flux, order and fint.  Fields assigned only by a
later block start as the empty string and are overwritten there. -/
def baseConfig (a : Args) : Definitions × MakefileOptions :=
  ({ PROBLEM := a.prob
     COORDINATE_SYSTEM := coordStr a.coord
     NON_BAROTROPIC_EOS := if a.eos = .adiabatic then "1" else "0"
     NHYDRO_VARIABLES := if a.eos = .adiabatic then "5" else "4"
     RSOLVER := fluxStr a.flux
     RECONSTRUCT := a.order
     HYDRO_INTEGRATOR := a.fint
     MAGNETIC_FIELDS_ENABLED := ""
     NFIELD_VARIABLES := ""
     NWAVE_VALUE := ""
     RELATIVISTIC_DYNAMICS := ""
     GENERAL_RELATIVITY := ""
     FRAME_TRANSFORMATIONS := ""
     SHEARING_BOX := ""
     COMPILER_CHOICE := ""
     COMPILER_COMMAND := ""
     DEBUG := ""
     MPI_OPTION := ""
     OPENMP_OPTION := ""
     HDF5_OPTION := ""
     COMPILER_FLAGS := "" },
   { LOADER_FLAGS := ""
     PROBLEM_FILE := a.prob
     COORDINATES_FILE := coordStr a.coord
     EOS_FILE := eosStr a.eos
     RSOLVER_FILE := fluxStr a.flux
     RECONSTRUCT_FILE := a.order
     HYDRO_INT_FILE := a.fint
     RSOLVER_DIR := ""
     COMPILER_COMMAND := ""
     PREPROCESSOR_FLAGS := ""
     COMPILER_FLAGS := ""
     LINKER_FLAGS := ""
     LIBRARY_FLAGS := "" })

/-- The -b block of Step 3 (configure.py line 251-272): magnetism macros,
wave counts, and the _mhd / _hydro and _mhd / _iso file suffixes.  The
source appends _mhd (for hlle, llf, roe) before _iso (for isothermal hlld);
those guards are mutually exclusive, so the two appends commute with the
per-field form used here. -/
def applyB (a : Args) (dm : Definitions × MakefileOptions) : Definitions × MakefileOptions :=
  ({ dm.1 with
      MAGNETIC_FIELDS_ENABLED := if a.b = true then "1" else "0"
      NFIELD_VARIABLES := if a.b = true then "3" else "0"
      NWAVE_VALUE :=
        if a.b = true then (if a.eos = .adiabatic then "7" else "6")
        else (if a.eos = .adiabatic then "5" else "4") },
   { dm.2 with
      EOS_FILE := dm.2.EOS_FILE ++ (if a.b = true then "_mhd" else "_hydro")
      RSOLVER_DIR := if a.b = true then "mhd/" else "hydro/"
      RSOLVER_FILE := dm.2.RSOLVER_FILE
        ++ (if a.b = true ∧ (a.flux = .hlle ∨ a.flux = .llf ∨ a.flux = .roe) then "_mhd" else "")
        ++ (if a.b = true ∧ a.eos = .isothermal ∧ a.flux = .hlld then "_iso" else "") })

/-- The -s, -g, -t block of Step 3 (configure.py line 275-285): relativity
macros, the _sr / _gr EOS suffixes and the _rel / _no_transform solver
suffixes, appended after the magnetism suffixes exactly as in the source. -/
def applyRel (a : Args) (dm : Definitions × MakefileOptions) : Definitions × MakefileOptions :=
  ({ dm.1 with
      RELATIVISTIC_DYNAMICS := if a.s = true ∨ a.g = true then "1" else "0"
      GENERAL_RELATIVITY := if a.g = true then "1" else "0"
      FRAME_TRANSFORMATIONS := if a.t = true then "1" else "0" },
   { dm.2 with
      EOS_FILE := dm.2.EOS_FILE
        ++ (if a.s = true then "_sr" else "")
        ++ (if a.g = true then "_gr" else "")
      RSOLVER_FILE := dm.2.RSOLVER_FILE
        ++ (if a.s = true then "_rel" else "")
        ++ (if a.g = true then "_rel" ++ (if a.t = false then "_no_transform" else "") else "") })

/-- The -sh block of Step 3 (configure.py line 289-293). -/
def applySh (a : Args) (dm : Definitions × MakefileOptions) : Definitions × MakefileOptions :=
  ({ dm.1 with SHEARING_BOX := if a.sh = true then "1" else "0" }, dm.2)

/-- The base compiler flags of the bgxl toolchain (configure.py
line 331-335), also used as its linker flags (line 336). -/
def bgxlBaseFlags : String :=
  "-O3 -qhot=level=1:vector -qinline=level=5:auto -qipa=level=1:noobject"
  ++ " -qstrict=subnormals -qmaxmem=150000 -qlanglvl=extended -qsuppress=1500-036"
  ++ " -qsuppress=1540-1401 -qsuppress=1586-083 -qsuppress=1586-233"
  ++ " -qsuppress=1586-267"

/-- The --cxx block of Step 3 (configure.py line 298-344): one branch per
compiler, binding compiler choice, command and the four flag strings. -/
def applyCxx (a : Args) (dm : Definitions × MakefileOptions) : Definitions × MakefileOptions :=
  ({ dm.1 with
      COMPILER_CHOICE :=
        match a.cxx with
        | .gpp => "g++" | .icc => "icc" | .cray => "cray" | .bgxl => "bgxlc++" | .iccPhi => "icc"
      COMPILER_COMMAND :=
        match a.cxx with
        | .gpp => "g++" | .icc => "icc" | .cray => "CC" | .bgxl => "bgxlc++" | .iccPhi => "icc" },
   { dm.2 with
      COMPILER_COMMAND :=
        match a.cxx with
        | .gpp => "g++" | .icc => "icc" | .cray => "CC" | .bgxl => "bgxlc++" | .iccPhi => "icc"
      PREPROCESSOR_FLAGS := ""
      COMPILER_FLAGS :=
        match a.cxx with
        | .gpp => "-O3 -march=native -ffast-math"
        | .icc => "-O3 -xhost -ipo -inline-forceinline"
        | .cray => "-O3 -h aggress -h vector3 -hfp3"
        | .bgxl => bgxlBaseFlags
        | .iccPhi => "-O3 -xMIC-AVX512 -ipo -inline-forceinline"
      LINKER_FLAGS :=
        match a.cxx with
        | .gpp => "" | .icc => "" | .cray => "-hwp -hpl=obj/lib" | .bgxl => bgxlBaseFlags | .iccPhi => ""
      LIBRARY_FLAGS :=
        match a.cxx with
        | .gpp => "" | .icc => "" | .cray => "-lm" | .bgxl => "" | .iccPhi => "" })

/-- The per-compiler debug flag strings of the -debug block (configure.py
line 349-356). -/
def debugFlagsOf : Cxx → String
  | .gpp => "-O0 -g"
  | .icc => "-O0 -g"
  | .cray => "-O0"
  | .bgxl => "-O0 -g -qlanglvl=extended"
  | .iccPhi => "-O0 -g -xMIC-AVX512"

/-- The -debug block of Step 3 (configure.py line 347-358): the DEBUG macro
and the overwrite (not append) of COMPILER_FLAGS. -/
def applyDebug (a : Args) (dm : Definitions × MakefileOptions) : Definitions × MakefileOptions :=
  ({ dm.1 with DEBUG := if a.debug = true then "DEBUG" else "NOT_DEBUG" },
   { dm.2 with COMPILER_FLAGS :=
      if a.debug = true then debugFlagsOf a.cxx else dm.2.COMPILER_FLAGS })

/-- The -mpi block of Step 3 (configure.py line 361-370): the MPI macro,
the wrapper compiler commands, and the cray append. -/
def applyMpi (a : Args) (dm : Definitions × MakefileOptions) : Definitions × MakefileOptions :=
  ({ dm.1 with
      MPI_OPTION := if a.mpi = true then "MPI_PARALLEL" else "NOT_MPI_PARALLEL"
      COMPILER_COMMAND :=
        if a.mpi = true ∧ (a.cxx = .gpp ∨ a.cxx = .icc ∨ a.cxx = .iccPhi) then "mpicxx"
        else if a.mpi = true ∧ a.cxx = .bgxl then "mpixlcxx"
        else dm.1.COMPILER_COMMAND },
   { dm.2 with
      COMPILER_COMMAND :=
        if a.mpi = true ∧ (a.cxx = .gpp ∨ a.cxx = .icc ∨ a.cxx = .iccPhi) then "mpicxx"
        else if a.mpi = true ∧ a.cxx = .bgxl then "mpixlcxx"
        else dm.2.COMPILER_COMMAND
      COMPILER_FLAGS := dm.2.COMPILER_FLAGS
        ++ (if a.mpi = true ∧ a.cxx = .cray then " -h mpi1" else "") })

/-- The -omp block of Step 3 (configure.py line 373-393): the OpenMP macro,
the per-compiler flag appends, the bgxl thread-safe command suffix, and the
no-OpenMP appends for cray and icc. -/
def applyOmp (a : Args) (dm : Definitions × MakefileOptions) : Definitions × MakefileOptions :=
  ({ dm.1 with
      OPENMP_OPTION := if a.omp = true then "OPENMP_PARALLEL" else "NOT_OPENMP_PARALLEL"
      COMPILER_COMMAND := dm.1.COMPILER_COMMAND
        ++ (if a.omp = true ∧ a.cxx = .bgxl then "_r" else "") },
   { dm.2 with
      COMPILER_COMMAND := dm.2.COMPILER_COMMAND
        ++ (if a.omp = true ∧ a.cxx = .bgxl then "_r" else "")
      COMPILER_FLAGS := dm.2.COMPILER_FLAGS
        ++ (if a.omp = true then
              match a.cxx with
              | .gpp => " -fopenmp"
              | .icc => " -openmp"
              | .iccPhi => " -openmp"
              | .cray => " -homp"
              | .bgxl => " -qsmp"
            else
              match a.cxx with
              | .cray => " -hnoomp"
              | .icc => " -diag-disable 3180"
              | .iccPhi => " -diag-disable 3180"
              | _ => "") })

/-- The -hdf5 block of Step 3 (configure.py line 396-413): the HDF5 macro,
the -I / -L fragments of --hdf5_path (appended with no separating space,
as in the source format strings), the -lhdf5 library flag, and the bgxl
system paths. -/
def applyHdf5 (a : Args) (dm : Definitions × MakefileOptions) : Definitions × MakefileOptions :=
  ({ dm.1 with HDF5_OPTION := if a.hdf5 = true then "HDF5OUTPUT" else "NO_HDF5OUTPUT" },
   { dm.2 with
      PREPROCESSOR_FLAGS := dm.2.PREPROCESSOR_FLAGS
        ++ (if a.hdf5 = true ∧ a.hdf5_path ≠ "" then "-I" ++ a.hdf5_path ++ "/include" else "")
        ++ (if a.hdf5 = true ∧ a.cxx = .bgxl then
              " -D_LARGEFILE_SOURCE -D_LARGEFILE64_SOURCE -D_BSD_SOURCE"
              ++ " -I/soft/libraries/hdf5/1.10.0/cnk-xl/current/include"
              ++ " -I/bgsys/drivers/ppcfloor/comm/include"
            else "")
      LINKER_FLAGS := dm.2.LINKER_FLAGS
        ++ (if a.hdf5 = true ∧ a.hdf5_path ≠ "" then "-L" ++ a.hdf5_path ++ "/lib" else "")
        ++ (if a.hdf5 = true ∧ a.cxx = .bgxl then
              " -L/soft/libraries/hdf5/1.10.0/cnk-xl/current/lib"
              ++ " -L/soft/libraries/alcf/current/xl/ZLIB/lib"
            else "")
      LIBRARY_FLAGS := dm.2.LIBRARY_FLAGS
        ++ (if a.hdf5 = true ∧ (a.cxx = .gpp ∨ a.cxx = .icc ∨ a.cxx = .cray ∨ a.cxx = .iccPhi)
            then " -lhdf5" else "")
        ++ (if a.hdf5 = true ∧ a.cxx = .bgxl then " -lhdf5 -lz -lm" else "") })

/-- The --ccmd block of Step 3 (configure.py line 416-417). -/
def applyCcmd (a : Args) (dm : Definitions × MakefileOptions) : Definitions × MakefileOptions :=
  ({ dm.1 with COMPILER_COMMAND := a.ccmd.getD dm.1.COMPILER_COMMAND },
   { dm.2 with COMPILER_COMMAND := a.ccmd.getD dm.2.COMPILER_COMMAND })

/-- The --include block of Step 3 (configure.py line 420-421). -/
def applyInclude (a : Args) (dm : Definitions × MakefileOptions) : Definitions × MakefileOptions :=
  (dm.1, { dm.2 with COMPILER_FLAGS :=
      a.includePaths.foldl (fun f p => f ++ " -I" ++ p) dm.2.COMPILER_FLAGS })

/-- The --lib block of Step 3 (configure.py line 424-425). -/
def applyLib (a : Args) (dm : Definitions × MakefileOptions) : Definitions × MakefileOptions :=
  (dm.1, { dm.2 with LINKER_FLAGS :=
      a.libPaths.foldl (fun f p => f ++ " -L" ++ p) dm.2.LINKER_FLAGS })

/-- The aggregate flag assembly of Step 3 (configure.py line 428-429): the
space-joined concatenation of the four flag categories in source order. -/
def applyAggregate (dm : Definitions × MakefileOptions) : Definitions × MakefileOptions :=
  ({ dm.1 with COMPILER_FLAGS :=
      (String.intercalate " "
        [dm.2.PREPROCESSOR_FLAGS, dm.2.COMPILER_FLAGS, dm.2.LINKER_FLAGS, dm.2.LIBRARY_FLAGS]) },
   dm.2)

/-- All of Step 3 of configure.py, the blocks composed in source order. -/
def step3 (a : Args) : Definitions × MakefileOptions :=
  applyAggregate (applyLib a (applyInclude a (applyCcmd a (applyHdf5 a
    (applyOmp a (applyMpi a (applyDebug a (applyCxx a
      (applySh a (applyRel a (applyB a (baseConfig a))))))))))))

/-- The start of Step 4 of configure.py (line 434-439): every filename
gets the .cpp extension. -/
def finalize (dm : Definitions × MakefileOptions) : Definitions × MakefileOptions :=
  (dm.1,
   { dm.2 with
      PROBLEM_FILE := dm.2.PROBLEM_FILE ++ ".cpp"
      COORDINATES_FILE := dm.2.COORDINATES_FILE ++ ".cpp"
      EOS_FILE := dm.2.EOS_FILE ++ ".cpp"
      RSOLVER_FILE := dm.2.RSOLVER_FILE ++ ".cpp"
      RECONSTRUCT_FILE := dm.2.RECONSTRUCT_FILE ++ ".cpp"
      HYDRO_INT_FILE := dm.2.HYDRO_INT_FILE ++ ".cpp" })

example :
    (step3 (setDefaultFlux { defaultArgs with b := true })).1.NWAVE_VALUE = "7" := by decide

example :
    (finalize (step3 (setDefaultFlux { defaultArgs with b := true }))).2.RSOLVER_FILE
      = "hlld.cpp" := by decide

example :
    (finalize (step3 defaultArgs)).2.EOS_FILE = "adiabatic_hydro.cpp" := by decide

example :
    (step3 defaultArgs).1.COMPILER_FLAGS
      = " -O3 -march=native -ffast-math  " := by decide

/-- An option set with given compatibility-relevant fields and neutral
remaining fields; checkCompat and firstViolated read no other field. -/
def mkCore (fl : Flux) (e : Eos) (b s g t : Bool) (c : Coord) : Args :=
  { prob := "", coord := c, eos := e, flux := fl, order := "", fint := "",
    b := b, s := s, g := g, t := t, sh := false, debug := false, mpi := false,
    omp := false, hdf5 := false, hdf5_path := "", cxx := .gpp, ccmd := none,
    includePaths := [], libPaths := [] }

theorem compat_core :
    ∀ (fl : Flux) (e : Eos) (b s g t : Bool) (c : Coord),
      (checkCompat (mkCore fl e b s g t c)).map ruleIdx
        = firstViolated (mkCore fl e b s g t c) := by
  decide

theorem compat_spec (a : Args) :
    (checkCompat a).map ruleIdx = firstViolated a :=
  compat_core a.flux a.eos a.b a.s a.g a.t a.coord

theorem checkCompat_none_rv (a : Args) (h : checkCompat a = none) :
    ∀ i ∈ [1, 2, 3, 4, 5, 6, 7, 8, 9], ruleViolated i a = false := by
  intro i hi
  have hc := compat_spec a
  rw [h] at hc
  have hall := List.find?_eq_none.mp hc.symm
  simpa using hall i hi

@[simp] theorem setDefaultFlux_g (a : Args) : (setDefaultFlux a).g = a.g := by
  unfold setDefaultFlux; split <;> rfl

@[simp] theorem setDefaultFlux_s (a : Args) : (setDefaultFlux a).s = a.s := by
  unfold setDefaultFlux; split <;> rfl

@[simp] theorem setDefaultFlux_t (a : Args) : (setDefaultFlux a).t = a.t := by
  unfold setDefaultFlux; split <;> rfl

@[simp] theorem setDefaultFlux_b (a : Args) : (setDefaultFlux a).b = a.b := by
  unfold setDefaultFlux; split <;> rfl

@[simp] theorem setDefaultFlux_eos (a : Args) : (setDefaultFlux a).eos = a.eos := by
  unfold setDefaultFlux; split <;> rfl

@[simp] theorem setDefaultFlux_coord (a : Args) : (setDefaultFlux a).coord = a.coord := by
  unfold setDefaultFlux; split <;> rfl

theorem setDefaultFlux_flux (a : Args) (h : a.flux = .default) :
    (setDefaultFlux a).flux =
      (if a.g = true then .hlle
       else if a.b = true then .hlld
       else if a.eos = .isothermal then .hlle
       else .hllc) := by
  unfold setDefaultFlux
  rw [if_pos h]

/-- C1: the Step 2 checks of configure.py test the nine rules of
section 4.2 in exactly the listed order and raise on the first violated
rule only: the raised error (if any) sits at the position of the earliest
violated rule, and no error is raised exactly when no rule is violated
(firstViolated is none). -/
theorem compat_first_violated_rule (a : Args) :
    (checkCompat a).map ruleIdx = firstViolated a :=
  compat_core a.flux a.eos a.b a.s a.g a.t a.coord

/-- C2: the derived variable counts follow the 2x2 table over EOS and
magnetism: NHYDRO_VARIABLES is 5/4 for adiabatic/isothermal,
NFIELD_VARIABLES is 3/0 with/without magnetism, and NWAVE_VALUE is
7, 6, 5, 4 for adiabatic+MHD, isothermal+MHD, adiabatic hydro,
isothermal hydro. -/
theorem variable_count_table (a : Args) :
    (step3 a).1.NHYDRO_VARIABLES = (if a.eos = .adiabatic then "5" else "4")
    ∧ (step3 a).1.NFIELD_VARIABLES = (if a.b = true then "3" else "0")
    ∧ (step3 a).1.NWAVE_VALUE =
        (if a.b = true then (if a.eos = .adiabatic then "7" else "6")
         else (if a.eos = .adiabatic then "5" else "4")) :=
  ⟨rfl, rfl, rfl⟩

/-- C3: when flux is left at 'default' the resolved flux follows the
priority chain GR then magnetism then isothermal EOS then HLLC; an
explicit flux is never changed; and the option set with flux default,
magnetism on and adiabatic EOS resolves to hlld with NWAVE 7 and
NFIELD 3. -/
theorem default_flux_priority_chain :
    (∀ a : Args, a.flux = .default →
      (setDefaultFlux a).flux =
        (if a.g = true then .hlle
         else if a.b = true then .hlld
         else if a.eos = .isothermal then .hlle
         else .hllc))
    ∧ (∀ a : Args, a.flux ≠ .default → setDefaultFlux a = a)
    ∧ ((setDefaultFlux { defaultArgs with b := true }).flux = .hlld
       ∧ (step3 (setDefaultFlux { defaultArgs with b := true })).1.NWAVE_VALUE = "7"
       ∧ (step3 (setDefaultFlux { defaultArgs with b := true })).1.NFIELD_VARIABLES = "3") := by
  refine ⟨fun a h => setDefaultFlux_flux a h, fun a h => ?_, by decide⟩
  unfold setDefaultFlux
  rw [if_neg h]

theorem default_flux_priority_chain_witness :
    (setDefaultFlux { defaultArgs with eos := .isothermal }).flux = .hlle :=
  default_flux_priority_chain.1 { defaultArgs with eos := .isothermal } rfl

/-- C4: the flux selected by default-flux resolution never violates the
flux-concerning rules 1, 2, 3 and 6, so any rejection of an option set
whose flux was left at 'default' comes from a rule not about the selected
flux. -/
theorem default_flux_never_rejected (a : Args) (h : a.flux = .default) :
    ruleViolated 1 (setDefaultFlux a) = false
    ∧ ruleViolated 2 (setDefaultFlux a) = false
    ∧ ruleViolated 3 (setDefaultFlux a) = false
    ∧ ruleViolated 6 (setDefaultFlux a) = false
    ∧ ∀ e, checkCompat (setDefaultFlux a) = some e →
        ruleIdx e ∉ ([1, 2, 3, 6] : List Nat) := by
  have hfx := setDefaultFlux_flux a h
  have h1 : ruleViolated 1 (setDefaultFlux a) = false := by
    simp only [ruleViolated, hfx, setDefaultFlux_eos]
    cases hg : a.g <;> cases hb : a.b <;> cases he : a.eos <;> decide
  have h2 : ruleViolated 2 (setDefaultFlux a) = false := by
    simp only [ruleViolated, hfx, setDefaultFlux_b]
    cases hg : a.g <;> cases hb : a.b <;> cases he : a.eos <;> decide
  have h3 : ruleViolated 3 (setDefaultFlux a) = false := by
    simp only [ruleViolated, hfx, setDefaultFlux_b]
    cases hg : a.g <;> cases hb : a.b <;> cases he : a.eos <;> decide
  have h6 : ruleViolated 6 (setDefaultFlux a) = false := by
    simp only [ruleViolated, hfx, setDefaultFlux_g, setDefaultFlux_t]
    cases hg : a.g <;> cases hb : a.b <;> cases he : a.eos <;> cases ht : a.t <;> decide
  refine ⟨h1, h2, h3, h6, fun e he hmem => ?_⟩
  have hspec := compat_spec (setDefaultFlux a)
  rw [he] at hspec
  have hfv : [1, 2, 3, 4, 5, 6, 7, 8, 9].find?
      (fun i => ruleViolated i (setDefaultFlux a)) = some (ruleIdx e) := by
    simpa [firstViolated] using hspec.symm
  have hrv : ruleViolated (ruleIdx e) (setDefaultFlux a) = true := by
    simpa using List.find?_some hfv
  have : ruleIdx e = 1 ∨ ruleIdx e = 2 ∨ ruleIdx e = 3 ∨ ruleIdx e = 6 := by
    simpa using hmem
  rcases this with h' | h' | h' | h' <;> rw [h'] at hrv
  · exact absurd hrv (by rw [h1]; exact Bool.false_ne_true)
  · exact absurd hrv (by rw [h2]; exact Bool.false_ne_true)
  · exact absurd hrv (by rw [h3]; exact Bool.false_ne_true)
  · exact absurd hrv (by rw [h6]; exact Bool.false_ne_true)

theorem default_flux_never_rejected_witness :
    ruleViolated 1 (setDefaultFlux defaultArgs) = false :=
  (default_flux_never_rejected defaultArgs rfl).1

/-- C5: for every option set passing the compatibility checks, the EOS and
Riemann-solver source file names compose their suffixes in source order:
magnetism suffixes before relativity suffixes, then the .cpp extension. -/
theorem source_file_name_composition (a : Args) (h : checkCompat a = none) :
    (finalize (step3 a)).2.EOS_FILE =
      eosStr a.eos ++ (if a.b = true then "_mhd" else "_hydro")
        ++ (if a.s = true then "_sr" else if a.g = true then "_gr" else "") ++ ".cpp"
    ∧ (finalize (step3 a)).2.RSOLVER_FILE =
      fluxStr a.flux
        ++ (if a.b = true ∧ (a.flux = .hlle ∨ a.flux = .llf ∨ a.flux = .roe) then "_mhd" else "")
        ++ (if a.b = true ∧ a.eos = .isothermal ∧ a.flux = .hlld then "_iso" else "")
        ++ (if a.s = true ∨ a.g = true then "_rel" else "")
        ++ (if a.g = true ∧ a.t = false then "_no_transform" else "") ++ ".cpp" := by
  have hsg : (a.s && a.g) = false := by
    have h4 := checkCompat_none_rv a h 4 (by simp)
    simpa [ruleViolated] using h4
  constructor
  · cases hs : a.s <;> cases hg : a.g <;>
      first
        | (exfalso; rw [hs, hg] at hsg; exact absurd hsg (by decide))
        | simp [finalize, step3, applyAggregate, applyLib, applyInclude, applyCcmd,
            applyHdf5, applyOmp, applyMpi, applyDebug, applyCxx, applySh, applyRel,
            applyB, baseConfig, hs, hg, String.append_assoc]
  · cases hs : a.s <;> cases hg : a.g <;> cases ht : a.t <;>
      first
        | (exfalso; rw [hs, hg] at hsg; exact absurd hsg (by decide))
        | simp [finalize, step3, applyAggregate, applyLib, applyInclude, applyCcmd,
            applyHdf5, applyOmp, applyMpi, applyDebug, applyCxx, applySh, applyRel,
            applyB, baseConfig, hs, hg, ht, String.append_assoc]

def srMhdArgs : Args :=
  { defaultArgs with flux := .hlle, b := true, s := true }

theorem source_file_name_composition_witness :
    (finalize (step3 srMhdArgs)).2.RSOLVER_FILE = "hlle_mhd_rel.cpp" :=
  (source_file_name_composition srMhdArgs rfl).2

/-- Sequential search for a contiguous character pattern, used to state
that a flag fragment does not occur in a flag string. -/
def containsSeq (pat : List Char) : List Char → Bool
  | [] => pat.isEmpty
  | c :: cs => pat.isPrefixOf (c :: cs) || containsSeq pat cs

/-- C7: with the debug toggle set (and no --include arguments) the
compiler-flag string is overwritten, not appended to: it starts with the
compiler-specific debug string and the base optimization flag -O3 does not
occur in it, for every compiler choice. -/
theorem debug_overrides_compiler_flags (a : Args) (hd : a.debug = true)
    (hi : a.includePaths = []) :
    List.isPrefixOf (debugFlagsOf a.cxx).toList ((step3 a).2.COMPILER_FLAGS).toList = true
    ∧ containsSeq ("-O3".toList) ((step3 a).2.COMPILER_FLAGS).toList = false := by
  simp only [step3, applyAggregate, applyLib, applyInclude, applyCcmd, applyHdf5,
    applyOmp, applyMpi, applyDebug, applyCxx, applySh, applyRel, applyB, baseConfig,
    hd, hi, List.foldl_nil, if_true]
  cases hc : a.cxx <;> cases hm : a.mpi <;> cases ho : a.omp <;> decide

theorem debug_overrides_compiler_flags_witness :
    containsSeq ("-O3".toList)
      ((step3 { defaultArgs with debug := true, cxx := .cray }).2.COMPILER_FLAGS).toList
      = false :=
  (debug_overrides_compiler_flags _ rfl rfl).2

/-- C8: the aggregate COMPILER_FLAGS entry of the definitions dictionary is
the space-joined concatenation of the four flag categories in exactly the
order preprocessor, compiler, linker, library. -/
theorem aggregate_flag_text_order (a : Args) :
    (step3 a).1.COMPILER_FLAGS =
      (step3 a).2.PREPROCESSOR_FLAGS ++ " " ++ (step3 a).2.COMPILER_FLAGS
        ++ " " ++ (step3 a).2.LINKER_FLAGS ++ " " ++ (step3 a).2.LIBRARY_FLAGS := rfl

/-- C10: with HDF5 output enabled and a non-empty hdf5_path, the include and
library path fragments are appended with no separating space; for the cray
compiler (non-empty base linker flags, no --lib arguments) the resolved
LINKER_FLAGS is the base string immediately followed by the -L fragment. -/
theorem hdf5_path_fragments_no_space (a : Args) (h5 : a.hdf5 = true)
    (hp : a.hdf5_path ≠ "") :
    (a.cxx ≠ .bgxl → (step3 a).2.PREPROCESSOR_FLAGS = "-I" ++ a.hdf5_path ++ "/include")
    ∧ (a.cxx = .cray → a.libPaths = [] →
        (step3 a).2.LINKER_FLAGS = "-hwp -hpl=obj/lib" ++ "-L" ++ a.hdf5_path ++ "/lib") := by
  constructor
  · intro hne
    simp only [step3, applyAggregate, applyLib, applyInclude, applyCcmd, applyHdf5,
      applyOmp, applyMpi, applyDebug, applyCxx, applySh, applyRel, applyB, baseConfig, h5]
    rw [if_pos ⟨trivial, hp⟩, if_neg (fun hcon => hne hcon.2)]
    simp [String.append_assoc]
  · intro hcr hlib
    simp only [step3, applyAggregate, applyLib, applyInclude, applyCcmd, applyHdf5,
      applyOmp, applyMpi, applyDebug, applyCxx, applySh, applyRel, applyB, baseConfig,
      h5, hcr, hlib, List.foldl_nil]
    rw [if_pos ⟨trivial, hp⟩, if_neg (fun hcon => Cxx.noConfusion hcon.2)]
    simp [← String.append_assoc]

def crayHdf5Args : Args :=
  { defaultArgs with hdf5 := true, hdf5_path := "/opt/h5", cxx := .cray }

theorem hdf5_path_fragments_no_space_witness :
    (step3 crayHdf5Args).2.LINKER_FLAGS
      = "-hwp -hpl=obj/lib" ++ "-L" ++ "/opt/h5" ++ "/lib" :=
  (hdf5_path_fragments_no_space crayHdf5Args rfl (by decide)).2 rfl rfl

/-- One pass of Python re.sub with a literal pattern (configure.py
line 448-451 uses re.sub with patterns of shape AT-key-AT whose keys are
uppercase identifiers, so the pattern is literal): scan left to right,
replace each non-overlapping occurrence of pat by repl, and never rescan
the replacement.  The fuel argument only bounds the recursion; it is set
to the text length, which the scan position never exceeds. -/
def reSubAux (pat repl : List Char) : Nat → List Char → List Char
  | _, [] => []
  | 0, s => s
  | fuel + 1, c :: cs =>
    if pat ≠ [] ∧ pat.isPrefixOf (c :: cs) = true then
      repl ++ reSubAux pat repl fuel ((c :: cs).drop pat.length)
    else
      c :: reSubAux pat repl fuel cs

/-- Replace every non-overlapping occurrence of pat in s by repl,
scanning left to right (the semantics of re.sub with a literal pattern). -/
def reSub (pat repl s : List Char) : List Char :=
  reSubAux pat repl s.length s

/-- One iteration of the substitution loop of configure.py (line 448-451):
re.sub of the delimiter-wrapped key by the value over the whole text. -/
def substituteOne (key val text : String) : String :=
  String.mk (reSub ("@" ++ key ++ "@").toList val.toList text.toList)

/-- The substitution loop of configure.py (line 448-451): one re.sub per
mapping entry, in mapping order, each acting on the previous result. -/
def substituteAll (m : List (String × String)) (text : String) : String :=
  m.foldl (fun acc kv => substituteOne kv.1 kv.2 acc) text

/-- Characters free of the placeholder delimiter. -/
def noAt (s : List Char) : Bool := s.all (fun c => c != '@')

/-- Modelled from the spec: scanner state for extracting the
delimiter-wrapped tokens of a text (section 4.4 speaks of the placeholder
set of a template and of remaining delimiter-wrapped tokens; configure.py
itself never extracts them).  The accumulator holds the reversed name of
the currently open token, if any. -/
def phAux : List Char → Option (List Char) → List String
  | [], _ => []
  | c :: cs, none => if c = '@' then phAux cs (some []) else phAux cs none
  | c :: cs, some acc =>
      if c = '@' then String.mk acc.reverse :: phAux cs none
      else phAux cs (some (c :: acc))

/-- Modelled from the spec: the delimiter-wrapped tokens of a text, by a
non-overlapping left-to-right scan. -/
def placeholderNamesL (s : List Char) : List String := phAux s none

/-- A template as alternating literal text and named placeholders, the
abstraction of section 4.4; renderL spells it out as raw text. -/
inductive Piece
  | lit (s : String)
  | hole (n : String)
deriving DecidableEq

/-- The raw text of a structured template. -/
def renderL : List Piece → List Char
  | [] => []
  | .lit s :: r => s.toList ++ renderL r
  | .hole n :: r => '@' :: (n.toList ++ ('@' :: renderL r))

/-- Replace every placeholder named key by the literal value v. -/
def mapHole (key v : String) : List Piece → List Piece :=
  List.map fun p =>
    match p with
    | .hole n => if n = key then .lit v else .hole n
    | .lit s => .lit s

def isLit : Piece → Bool
  | .lit _ => true
  | .hole _ => false

/-- Literal segments and placeholder names are delimiter-free. -/
def wfTemplate (t : List Piece) : Bool :=
  t.all fun p =>
    match p with
    | .lit s => noAt s.toList
    | .hole n => noAt n.toList

/-- No occurrence of the delimiter-wrapped key starts at the closing
delimiter of a placeholder with a different name (the cross-boundary
matches that re.sub would otherwise consume). -/
def safeFor (key : String) : List Piece → Bool
  | [] => true
  | .lit _ :: r => safeFor key r
  | .hole n :: r =>
      (n == key || !((key.toList ++ ['@']).isPrefixOf (renderL r))) && safeFor key r

/-- The side condition under which the sequential substitution loop is
well behaved: each key is delimiter-free, each value is delimiter-free,
each key is cross-boundary safe for the template at its turn, and after
all keys ran only literal segments remain (every placeholder name is some
key of the mapping). -/
def SafeChain : List (String × String) → List Piece → Bool
  | [], t => t.all isLit
  | (k, v) :: m, t =>
      noAt k.toList && noAt v.toList && safeFor k t && SafeChain m (mapHole k v t)

example : substituteAll [("AB", "x"), ("X", "u"), ("M", "v")] "@X@AB@M@" = "@XxM@" := by
  decide

example : placeholderNamesL ("@X@AB@M@".toList) = ["X", "M"] := by decide

example :
    substituteAll [("X", "u"), ("M", "v")]
      (String.mk (renderL [Piece.hole "X", Piece.lit "AB", Piece.hole "M"])) = "uABv" := by
  decide

example : SafeChain [("X", "u"), ("M", "v")] [Piece.hole "X", Piece.lit "AB", Piece.hole "M"]
    = true := by decide

example : SafeChain [("AB", "x"), ("X", "u"), ("M", "v")]
    [Piece.hole "X", Piece.lit "AB", Piece.hole "M"] = false := by decide

theorem reSubAux_fuel (pat repl : List Char) :
    ∀ f1 f2 s, s.length ≤ f1 → s.length ≤ f2 →
      reSubAux pat repl f1 s = reSubAux pat repl f2 s := by
  intro f1
  induction f1 with
  | zero =>
    intro f2 s h1 _
    have hs : s = [] := List.length_eq_zero.mp (Nat.le_zero.mp h1)
    subst hs
    cases f2 <;> rfl
  | succ f ih =>
    intro f2 s h1 h2
    cases s with
    | nil => cases f2 <;> rfl
    | cons c cs =>
      cases f2 with
      | zero => simp at h2
      | succ f2' =>
        have h1' : cs.length + 1 ≤ f + 1 := by simpa using h1
        have h2' : cs.length + 1 ≤ f2' + 1 := by simpa using h2
        simp only [reSubAux]
        split
        · next hcond =>
          have hp : 1 ≤ pat.length := by
            cases hq : pat with
            | nil => exact absurd hq hcond.1
            | cons _ _ => simp
          have hd1 : ((c :: cs).drop pat.length).length ≤ f := by
            rw [List.length_drop]; simp; omega
          have hd2 : ((c :: cs).drop pat.length).length ≤ f2' := by
            rw [List.length_drop]; simp; omega
          rw [ih _ _ hd1 hd2]
        · next =>
          rw [ih f2' cs (by omega) (by omega)]

theorem reSub_cons (pat repl : List Char) (c : Char) (cs : List Char) :
    reSub pat repl (c :: cs) =
      if pat ≠ [] ∧ pat.isPrefixOf (c :: cs) = true then
        repl ++ reSub pat repl ((c :: cs).drop pat.length)
      else c :: reSub pat repl cs := by
  show reSubAux pat repl (cs.length + 1) (c :: cs) = _
  simp only [reSubAux]
  split
  · next hcond =>
    have hp : 1 ≤ pat.length := by
      cases hq : pat with
      | nil => exact absurd hq hcond.1
      | cons _ _ => simp
    have hd1 : ((c :: cs).drop pat.length).length ≤ cs.length := by
      rw [List.length_drop]; simp; omega
    rw [reSubAux_fuel pat repl cs.length ((c :: cs).drop pat.length).length _ hd1 (Nat.le_refl _)]
    rfl
  · rfl

theorem reSub_skip (p repl : List Char) :
    ∀ (pre : List Char), noAt pre = true → ∀ s,
      reSub ('@' :: p) repl (pre ++ s) = pre ++ reSub ('@' :: p) repl s := by
  intro pre
  induction pre with
  | nil => intro _ s; rfl
  | cons c cs ih =>
    intro hpre s
    obtain ⟨hc, hcs⟩ : c ≠ '@' ∧ noAt cs = true := by simpa [noAt] using hpre
    have hneg : ¬(('@' :: p) ≠ [] ∧ ('@' :: p).isPrefixOf (c :: (cs ++ s)) = true) := by
      intro hcon
      have h2 := hcon.2
      simp only [List.isPrefixOf, Bool.and_eq_true, beq_iff_eq] at h2
      exact hc h2.1.symm
    rw [List.cons_append, reSub_cons, if_neg hneg, ih hcs s, List.cons_append]

theorem isPrefixOf_append_self (l t : List Char) : l.isPrefixOf (l ++ t) = true := by
  induction l with
  | nil => simp
  | cons a as ih => simp [List.isPrefixOf, ih]

theorem reSub_at_match (pat repl s : List Char) (h : pat ≠ []) :
    reSub pat repl (pat ++ s) = repl ++ reSub pat repl s := by
  cases pat with
  | nil => exact absurd rfl h
  | cons q qs =>
    have hpre : (q :: qs).isPrefixOf (q :: (qs ++ s)) = true := by
      rw [← List.cons_append]; exact isPrefixOf_append_self _ _
    have hd : (q :: (qs ++ s)).drop (q :: qs).length = s := by
      simp [List.drop_left qs s]
    rw [List.cons_append, reSub_cons, if_pos ⟨by simp, hpre⟩, hd]

theorem isPrefixOf_key :
    ∀ (k n s : List Char), noAt k = true → noAt n = true →
      ((k ++ ['@']).isPrefixOf (n ++ '@' :: s) = true ↔ k = n) := by
  intro k
  induction k with
  | nil =>
    intro n s _ hn
    cases n with
    | nil => simp [List.isPrefixOf]
    | cons b bs =>
      obtain ⟨hb, _⟩ : b ≠ '@' ∧ noAt bs = true := by simpa [noAt] using hn
      constructor
      · intro hpre
        simp only [List.nil_append, List.cons_append, List.isPrefixOf, Bool.and_eq_true,
          beq_iff_eq] at hpre
        exact absurd hpre.1.symm hb
      · intro hcon; exact absurd hcon (by simp)
  | cons a as ih =>
    intro n s hk hn
    obtain ⟨ha, has⟩ : a ≠ '@' ∧ noAt as = true := by simpa [noAt] using hk
    cases n with
    | nil =>
      constructor
      · intro hpre
        simp only [List.cons_append, List.nil_append, List.isPrefixOf, Bool.and_eq_true,
          beq_iff_eq] at hpre
        exact absurd hpre.1 ha
      · intro hcon; exact absurd hcon (by simp)
    | cons b bs =>
      obtain ⟨_, hbs⟩ : b ≠ '@' ∧ noAt bs = true := by simpa [noAt] using hn
      simp only [List.cons_append, List.isPrefixOf, List.append_eq, Bool.and_eq_true,
        beq_iff_eq]
      rw [ih bs s has hbs]
      constructor
      · rintro ⟨h1, h2⟩; rw [h1, h2]
      · intro h; injection h with h1 h2; exact ⟨h1, h2⟩

theorem string_toList_inj {s t : String} (h : s.toList = t.toList) : s = t := by
  cases s with
  | mk d1 =>
    cases t with
    | mk d2 =>
      have hd : d1 = d2 := h
      rw [hd]

theorem pat_toList (k : String) : ("@" ++ k ++ "@").toList = '@' :: (k.toList ++ ['@']) := by
  cases k with
  | mk d => rfl

theorem reSub_renderL (key v : String) :
    ∀ t : List Piece, wfTemplate t = true → noAt key.toList = true → safeFor key t = true →
      reSub ('@' :: (key.toList ++ ['@'])) v.toList (renderL t)
        = renderL (mapHole key v t) := by
  intro t
  induction t with
  | nil => intro _ _ _; rfl
  | cons p r ih =>
    intro hw hk hs
    cases p with
    | lit s =>
      obtain ⟨hls, hw'⟩ : noAt s.toList = true ∧ wfTemplate r = true := by
        simpa [wfTemplate, List.all_cons] using hw
      have hsr : safeFor key r = true := by simpa [safeFor] using hs
      show reSub ('@' :: (key.toList ++ ['@'])) v.toList (s.toList ++ renderL r) = _
      rw [reSub_skip _ _ s.toList hls (renderL r), ih hw' hk hsr]
      rfl
    | hole n =>
      obtain ⟨hnn, hw'⟩ : noAt n.toList = true ∧ wfTemplate r = true := by
        simpa [wfTemplate, List.all_cons] using hw
      obtain ⟨hcross, hsr⟩ :
          (n == key || !((key.toList ++ ['@']).isPrefixOf (renderL r))) = true
            ∧ safeFor key r = true := by
        simpa [safeFor] using hs
      by_cases hnk : n = key
      · subst hnk
        have hsplit : renderL (Piece.hole n :: r)
            = ('@' :: (n.toList ++ ['@'])) ++ renderL r := by
          simp [renderL, List.append_assoc]
        rw [hsplit, reSub_at_match _ _ _ (by simp), ih hw' hk hsr]
        simp [mapHole, renderL]
      · have hnb : (n == key) = false := by simp [hnk]
        have hnopre : ((key.toList ++ ['@']).isPrefixOf (renderL r)) = false := by
          have hc := hcross
          rw [hnb] at hc
          simpa using hc
      
        have step1 : reSub ('@' :: (key.toList ++ ['@'])) v.toList
              ('@' :: (n.toList ++ ('@' :: renderL r)))
            = '@' :: reSub ('@' :: (key.toList ++ ['@'])) v.toList
                (n.toList ++ ('@' :: renderL r)) := by
          rw [reSub_cons, if_neg]
          intro hcon
          have h2 := hcon.2
          simp only [List.isPrefixOf, Bool.and_eq_true, beq_iff_eq] at h2
          have heq := (isPrefixOf_key key.toList n.toList (renderL r) hk hnn).mp h2.2
          exact hnk (string_toList_inj heq).symm
        have step2 : reSub ('@' :: (key.toList ++ ['@'])) v.toList
              (n.toList ++ ('@' :: renderL r))
            = n.toList ++ reSub ('@' :: (key.toList ++ ['@'])) v.toList
                ('@' :: renderL r) :=
          reSub_skip _ _ n.toList hnn _
        have step3 : reSub ('@' :: (key.toList ++ ['@'])) v.toList ('@' :: renderL r)
            = '@' :: reSub ('@' :: (key.toList ++ ['@'])) v.toList (renderL r) := by
          rw [reSub_cons, if_neg]
          intro hcon
          have h2 := hcon.2
          simp only [List.isPrefixOf, Bool.and_eq_true, beq_iff_eq] at h2
          rw [hnopre] at h2
          exact absurd h2.2 (by simp)
        show reSub ('@' :: (key.toList ++ ['@'])) v.toList
            ('@' :: (n.toList ++ ('@' :: renderL r))) = _
        rw [step1, step2, step3, ih hw' hk hsr]
        simp [mapHole, renderL, hnk]

theorem wfTemplate_cons (p : Piece) (r : List Piece) :
    wfTemplate (p :: r)
      = ((match p with | .lit s => noAt s.toList | .hole n => noAt n.toList)
          && wfTemplate r) := rfl

theorem wfTemplate_mapHole (key v : String) (hv : noAt v.toList = true) :
    ∀ t, wfTemplate t = true → wfTemplate (mapHole key v t) = true := by
  intro t
  induction t with
  | nil => intro _; rfl
  | cons p r ih =>
    intro hw
    rw [wfTemplate_cons, Bool.and_eq_true] at hw
    cases p with
    | lit s =>
      show wfTemplate (Piece.lit s :: mapHole key v r) = true
      rw [wfTemplate_cons, Bool.and_eq_true]
      exact ⟨hw.1, ih hw.2⟩
    | hole n =>
      show wfTemplate ((if n = key then Piece.lit v else Piece.hole n)
          :: mapHole key v r) = true
      by_cases hnk : n = key
      · rw [if_pos hnk, wfTemplate_cons, Bool.and_eq_true]
        exact ⟨hv, ih hw.2⟩
      · rw [if_neg hnk, wfTemplate_cons, Bool.and_eq_true]
        exact ⟨hw.1, ih hw.2⟩

theorem noAt_renderL :
    ∀ t, wfTemplate t = true → t.all isLit = true → noAt (renderL t) = true := by
  intro t
  induction t with
  | nil => intro _ _; rfl
  | cons p r ih =>
    intro hw hl
    rw [wfTemplate_cons, Bool.and_eq_true] at hw
    cases p with
    | lit s =>
      have hlr : r.all isLit = true := by simpa [List.all_cons, isLit] using hl
      show noAt (s.toList ++ renderL r) = true
      simp only [noAt, List.all_append, Bool.and_eq_true]
      exact ⟨hw.1, ih hw.2 hlr⟩
    | hole n => simp [List.all_cons, isLit] at hl

theorem phAux_noAt : ∀ s, noAt s = true → phAux s none = [] := by
  intro s
  induction s with
  | nil => intro _; rfl
  | cons c cs ih =>
    intro h
    obtain ⟨hc, hcs⟩ : c ≠ '@' ∧ noAt cs = true := by simpa [noAt] using h
    simp only [phAux, if_neg hc]
    exact ih hcs

theorem substituteAll_chain :
    ∀ (m : List (String × String)) (t : List Piece),
      wfTemplate t = true → SafeChain m t = true →
      placeholderNamesL ((substituteAll m (String.mk (renderL t))).toList) = [] := by
  intro m
  induction m with
  | nil =>
    intro t hw hs
    show placeholderNamesL ((String.mk (renderL t)).toList) = []
    exact phAux_noAt _ (noAt_renderL t hw hs)
  | cons kv m ih =>
    intro t hw hs
    obtain ⟨hk, hv, hsafe, hchain⟩ :
        noAt kv.1.toList = true ∧ noAt kv.2.toList = true ∧ safeFor kv.1 t = true
          ∧ SafeChain m (mapHole kv.1 kv.2 t) = true := by
      cases kv with
      | mk k v => simpa [SafeChain, Bool.and_eq_true, and_assoc] using hs
    show placeholderNamesL
        ((substituteAll m (substituteOne kv.1 kv.2 (String.mk (renderL t)))).toList) = []
    have hone : substituteOne kv.1 kv.2 (String.mk (renderL t))
        = String.mk (renderL (mapHole kv.1 kv.2 t)) := by
      unfold substituteOne
      rw [pat_toList]
      exact congrArg String.mk (reSub_renderL kv.1 kv.2 t hw hk hsafe)
    rw [hone]
    exact ih _ (wfTemplate_mapHole _ _ hv t hw) hchain

/-- C6 (amended): over structured templates, one re.sub by a delimiter-free
key replaces exactly the placeholders carrying that key and leaves every
other piece unchanged, provided no occurrence of the wrapped key starts at
the closing delimiter of a differently-named placeholder (safeFor); and
when that side condition holds at every step of the mapping and every
placeholder name is a key (SafeChain), the final output contains zero
delimiter-wrapped tokens.  Values are never rescanned, so they may be
arbitrary in the single-key statement. -/
theorem substitution_replaces_and_totality :
    (∀ (key v : String) (t : List Piece),
        wfTemplate t = true → noAt key.toList = true → safeFor key t = true →
        substituteOne key v (String.mk (renderL t))
          = String.mk (renderL (mapHole key v t)))
    ∧ (∀ (m : List (String × String)) (t : List Piece),
        wfTemplate t = true → SafeChain m t = true →
        placeholderNamesL ((substituteAll m (String.mk (renderL t))).toList) = []) := by
  constructor
  · intro key v t hw hk hs
    unfold substituteOne
    rw [pat_toList]
    exact congrArg String.mk (reSub_renderL key v t hw hk hs)
  · exact substituteAll_chain

theorem substitution_replaces_and_totality_witness :
    placeholderNamesL ((substituteAll [("A", "1"), ("B", "2")]
        (String.mk (renderL
          [Piece.lit "x", Piece.hole "A", Piece.lit "y", Piece.hole "B"]))).toList)
      = [] :=
  substitution_replaces_and_totality.2 [("A", "1"), ("B", "2")]
    [Piece.lit "x", Piece.hole "A", Piece.lit "y", Piece.hole "B"]
    (by decide) (by decide)

/-- C6 counterexample: the sequential re.sub loop applied to the template
AT X AT AB AT M AT (placeholder set a subset of the mapping keys AB, X, M;
all values delimiter-free) consumes the closing delimiter of the X
placeholder and the opening delimiter of the M placeholder through the
cross-boundary occurrence of the wrapped key AB, so one delimiter-wrapped
token remains in the output, the X placeholder is never replaced by its
value u, and the claimed totality fails. -/
theorem substitution_cross_boundary_cex :
    placeholderNamesL ("@X@AB@M@".toList) = ["X", "M"]
    ∧ (placeholderNamesL ("@X@AB@M@".toList)).all
        (fun n => (([("AB", "x"), ("X", "u"), ("M", "v")].map Prod.fst).contains n))
        = true
    ∧ ([("AB", "x"), ("X", "u"), ("M", "v")].all fun kv => noAt kv.2.toList) = true
    ∧ substituteAll [("AB", "x"), ("X", "u"), ("M", "v")] "@X@AB@M@" = "@XxM@"
    ∧ placeholderNamesL
        ((substituteAll [("AB", "x"), ("X", "u"), ("M", "v")] "@X@AB@M@").toList)
        = ["XxM"]
    ∧ containsSeq ("u".toList)
        ((substituteAll [("AB", "x"), ("X", "u"), ("M", "v")] "@X@AB@M@").toList)
        = false := by
  decide

/-- Output destination of the substituted macro-definitions template
(configure.py line 44). -/
def defsfile_output : String := "src/defs.hpp"

/-- Output destination of the substituted build recipe (configure.py
line 42). -/
def makefile_output : String := "Makefile"

/-- The definitions dictionary as the association list over which the
substitution loop of Step 4 iterates (configure.py line 448), in dict
insertion order. -/
def defsAssoc (d : Definitions) : List (String × String) :=
  [("PROBLEM", d.PROBLEM),
   ("COORDINATE_SYSTEM", d.COORDINATE_SYSTEM),
   ("NON_BAROTROPIC_EOS", d.NON_BAROTROPIC_EOS),
   ("NHYDRO_VARIABLES", d.NHYDRO_VARIABLES),
   ("RSOLVER", d.RSOLVER),
   ("RECONSTRUCT", d.RECONSTRUCT),
   ("HYDRO_INTEGRATOR", d.HYDRO_INTEGRATOR),
   ("MAGNETIC_FIELDS_ENABLED", d.MAGNETIC_FIELDS_ENABLED),
   ("NFIELD_VARIABLES", d.NFIELD_VARIABLES),
   ("NWAVE_VALUE", d.NWAVE_VALUE),
   ("RELATIVISTIC_DYNAMICS", d.RELATIVISTIC_DYNAMICS),
   ("GENERAL_RELATIVITY", d.GENERAL_RELATIVITY),
   ("FRAME_TRANSFORMATIONS", d.FRAME_TRANSFORMATIONS),
   ("SHEARING_BOX", d.SHEARING_BOX),
   ("COMPILER_CHOICE", d.COMPILER_CHOICE),
   ("COMPILER_COMMAND", d.COMPILER_COMMAND),
   ("DEBUG", d.DEBUG),
   ("MPI_OPTION", d.MPI_OPTION),
   ("OPENMP_OPTION", d.OPENMP_OPTION),
   ("HDF5_OPTION", d.HDF5_OPTION),
   ("COMPILER_FLAGS", d.COMPILER_FLAGS)]

/-- The makefile_options dictionary as the association list over which the
substitution loop of Step 4 iterates (configure.py line 450), in dict
insertion order. -/
def moAssoc (m : MakefileOptions) : List (String × String) :=
  [("LOADER_FLAGS", m.LOADER_FLAGS),
   ("PROBLEM_FILE", m.PROBLEM_FILE),
   ("COORDINATES_FILE", m.COORDINATES_FILE),
   ("EOS_FILE", m.EOS_FILE),
   ("RSOLVER_FILE", m.RSOLVER_FILE),
   ("RECONSTRUCT_FILE", m.RECONSTRUCT_FILE),
   ("HYDRO_INT_FILE", m.HYDRO_INT_FILE),
   ("RSOLVER_DIR", m.RSOLVER_DIR),
   ("COMPILER_COMMAND", m.COMPILER_COMMAND),
   ("PREPROCESSOR_FLAGS", m.PREPROCESSOR_FLAGS),
   ("COMPILER_FLAGS", m.COMPILER_FLAGS),
   ("LINKER_FLAGS", m.LINKER_FLAGS),
   ("LIBRARY_FLAGS", m.LIBRARY_FLAGS)]

/-- A whole run of configure.py on parsed arguments and the two template
texts: Step 2 (default-flux selection, then the compatibility checks that
abort on the first violation before anything is opened or written), then
Steps 3 and 4 (derivation, extensions, substitution, and the two output
writes, returned as the (destination, content) pairs in write order). -/
def run (a : Args) (defsTemplate makeTemplate : String) :
    Except ConfigError (List (String × String)) :=
  let a' := setDefaultFlux a
  match checkCompat a' with
  | some e => .error e
  | none =>
    let dm := finalize (step3 a')
    .ok [(defsfile_output, substituteAll (defsAssoc dm.1) defsTemplate),
         (makefile_output, substituteAll (moAssoc dm.2) makeTemplate)]

/-- C9: a rejected option set aborts before any artifact write: when a
compatibility rule fires, the run result is exactly that error and the
write list is empty; a successful run writes exactly the two output files
in order.  Parse failures are excluded by construction of Args, whose
enumerated fields only admit legal values. -/
theorem abort_before_any_write (a : Args) (dt mt : String) :
    (∀ e, checkCompat (setDefaultFlux a) = some e → run a dt mt = .error e)
    ∧ (∀ outs, run a dt mt = .ok outs →
        checkCompat (setDefaultFlux a) = none
        ∧ outs.map Prod.fst = [defsfile_output, makefile_output]) := by
  constructor
  · intro e he
    simp [run, he]
  · intro outs h
    cases hc : checkCompat (setDefaultFlux a) with
    | some e => simp [run, hc] at h
    | none =>
      simp only [run, hc, Except.ok.injEq] at h
      subst h
      exact ⟨rfl, rfl⟩

theorem abort_before_any_write_witness :
    run { defaultArgs with flux := .hllc, eos := .isothermal } "A" "B"
      = .error .hllcIso :=
  (abort_before_any_write { defaultArgs with flux := .hllc, eos := .isothermal }
    "A" "B").1 ConfigError.hllcIso (by decide)
